import Mathlib

/-!
Verification development for puckfetcher, a sequential RSS/podcast poller.

The definitions below are a shallow embedding of the Python sources
`src/puckfetcher/subscription.py` and `src/puckfetcher/config.py`.
Python machine-level details are rendered as follows:

* Python `None`-able attributes become `Option`; an attribute that may be
  absent from an object or a dictionary is likewise `Option` (absence and
  an explicit `None` value are conflated, which is faithful for every code
  path modelled here since the source only tests `is None` or key presence).
* Uncaught Python exceptions (AttributeError, TypeError, IndexError) are
  rendered by an `Option`/`Except` result, with `none`/`.error` marking the
  raising path.
* Python dicts used as finite maps become association lists with
  replace-or-append insertion, preserving Python's update semantics.
* The pluggable file downloader (`util.generate_downloader`, whose module is
  not part of the sources) has no observable effect on the modelled state
  when it succeeds, so a drain step models the download call itself as a
  no-op; interruption of a drain is modelled by an explicit schedule saying
  during which queue item (if any) the KeyboardInterrupt arrives, which is
  the window where essentially all time is spent (the enclosure downloads,
  i.e. after the source's `entry_num = entry_num - 1` line has executed).
* `feedparser` responses are modelled by the fields the source inspects:
  HTTP status (absent for local files), resolved `href`, the bozo flag, the
  response etag and the parsed entries.  A run of `get_feed` consumes one
  such response per attempt, supplied by an environment function indexed by
  the attempt count.
-/

/-- One feed entry as stored by `_FeedState.load_rss_info`: a title and the
ordered list of enclosure URLs. -/
structure Entry where
  title : String
  urls : List String
deriving DecidableEq

/-- Association-list lookup, first match wins (Python dict read). -/
def assocLookup {α β : Type} [DecidableEq α] : List (α × β) → α → Option β
  | [], _ => none
  | (k, v) :: rest, a => if k = a then some v else assocLookup rest a

/-- Association-list insertion with Python dict semantics: an existing key is
updated in place, a fresh key is appended. -/
def assocInsert {α β : Type} [DecidableEq α] (m : List (α × β)) (k : α) (v : β) :
    List (α × β) :=
  if m.any (fun p => p.1 = k) then
    m.map (fun p => if p.1 = k then (k, v) else p)
  else
    m ++ [(k, v)]

/-- Python list indexing `l[i]`: a nonnegative index must be below the length,
a negative index counts from the end; anything else raises IndexError,
rendered as `none`. -/
def pyListGet {α : Type} (l : List α) (i : Int) : Option α :=
  if 0 ≤ i ∧ i < (l.length : Int) then
    l.get? i.toNat
  else if -(l.length : Int) ≤ i ∧ i < 0 then
    l.get? ((l.length : Int) + i).toNat
  else
    none

/-- The `_FeedState` object of `subscription.py` (the fields the modelled
operations read or write; the `feed` blob and the `last_modified` datetime are
carried by the source but never consulted by any modelled operation —
`as_dict` even persists `last_modified` as `None` unconditionally). -/
structure FeedState where
  entries : List Entry
  entries_state_dict : List (Int × Bool)
  queue : List (Int × Bool)
  latest_entry_number : Option Int
  etag : Option String
  has_state : Bool
deriving DecidableEq

/-- `_FeedState()` built with no dictionary: everything empty, no state. -/
def FeedState.default : FeedState :=
  { entries := []
    entries_state_dict := []
    queue := []
    latest_entry_number := none
    etag := none
    has_state := false }

/-- Recursive worker of `Subscription.download_queue`.  The source pops the
front pair `(entry_num, overwrite)`, immediately decrements `entry_num`,
translates to age-from-newest `num_entries - (entry_num + 1)`, looks the entry
up, downloads each enclosure, and only then bumps the watermark and the
per-entry status; a KeyboardInterrupt arriving during the downloads of item
`step` makes the handler push `(entry_num, True)` — the already decremented
number — onto the front of the remaining queue and return.  An IndexError
from the entry lookup or a TypeError from comparing the watermark `None`
against an int would propagate uncaught; both are rendered as `none`.
Returns the final (queue, entries_state_dict, latest_entry_number). -/
def drainGo (intr : Option Nat) (step : Nat) (q : List (Int × Bool))
    (entries : List Entry) (dict : List (Int × Bool)) (latest : Option Int) :
    Option (List (Int × Bool) × List (Int × Bool) × Option Int) :=
  match q with
  | [] => some ([], dict, latest)
  | (n, _ov) :: rest =>
    let entry_num : Int := n - 1
    if intr = some step then
      some ((entry_num, true) :: rest, dict, latest)
    else
      match pyListGet entries ((entries.length : Int) - (entry_num + 1)) with
      | none => none
      | some _entry =>
        match latest with
        | none => none
        | some l =>
          drainGo intr (step + 1) rest entries
            (assocInsert dict entry_num true)
            (some (if entry_num > l then entry_num else l))

/-- `Subscription.download_queue`: drain the whole queue (or up to the
interrupted item), assuming every download succeeds. -/
def download_queue (intr : Option Nat) (fs : FeedState) : Option FeedState :=
  (drainGo intr 0 fs.queue fs.entries fs.entries_state_dict
      fs.latest_entry_number).map
    (fun r => { fs with queue := r.1, entries_state_dict := r.2.1,
                        latest_entry_number := r.2.2 })

/-- Python `==` between an int and an `(index, overwrite)` tuple: always
false, whatever the values.  This is the comparison performed element-wise by
`num not in self.feed_state.queue` in `Subscription.enqueue`, whose queue
holds tuples. -/
def pyIntEqPair (_n : Int) (_p : Int × Bool) : Bool := false

/-- `Subscription.enqueue`: keep the numbers that are positive, at most the
entry count, and "not in the queue" under Python's int-vs-tuple comparison;
pair each survivor with `True` and append them all; return the appended
pairs. -/
def enqueue (fs : FeedState) (nums : List Int) :
    List (Int × Bool) × FeedState :=
  let actual := (nums.filter (fun n =>
      decide (0 < n) && decide (n ≤ (fs.entries.length : Int)) &&
      !(fs.queue.any (pyIntEqPair n)))).map (fun n => (n, true))
  (actual, { fs with queue := fs.queue ++ actual })

/-- `util.max_clamp` is defined in `util.py`, which is not among the sources.
Modelled from the spec: "clamp `backlogLimit` to
`min(backlogLimit, totalEntries)`". -/
def max_clamp (x y : Int) : Int := min x y

/-- Tail of `Subscription.attempt_update` once the watermark is known to be
set: nothing to do when the watermark reaches the entry count, otherwise
append the one-based indices `latest+1 .. totalEntries` to the queue, each
with overwrite `False` (the source's `xrange(latest, number_feeds)` loop
appending `(i+1, False)`; `backlog_indices l ne` is that appended list). -/
def backlog_indices (l ne : Int) : List (Int × Bool) :=
  (List.range (ne - l).toNat).map (fun j => (l + 1 + (j : Int), false))

/-- Write the watermark. -/
def set_watermark (fs : FeedState) (l : Int) : FeedState :=
  { fs with latest_entry_number := some l }

/-- See the docstring above `backlog_indices`. -/
def plan_enqueue (lim : Option Int) (l : Int) (fs : FeedState) :
    Bool × Option Int × FeedState :=
  if l ≥ (fs.entries.length : Int) then (true, lim, fs)
  else
    (true, lim,
      { fs with queue := fs.queue ++ backlog_indices l (fs.entries.length : Int) })

/-- The pure planning part of `Subscription.attempt_update` (lines 159-211 of
`subscription.py`), i.e. everything between a successful `get_feed` and the
final `download_queue` call: establish the watermark on first contact
according to the backlog policy, then enqueue the new indices.  Returns the
success flag the source returns (`False` exactly on a negative backlog
limit), the possibly clamped backlog limit, and the new feed state. -/
def attempt_update_plan (download_backlog : Bool) (backlog_limit : Option Int)
    (fs : FeedState) : Bool × Option Int × FeedState :=
  match fs.latest_entry_number with
  | none =>
    match download_backlog with
    | true =>
      match backlog_limit with
      | none =>
        plan_enqueue none 0 (set_watermark fs 0)
      | some k =>
        if k = 0 then
          plan_enqueue (some k) 0 (set_watermark fs 0)
        else if k < 0 then
          (false, some k, fs)
        else
          plan_enqueue (some (max_clamp k (fs.entries.length : Int)))
            ((fs.entries.length : Int) - max_clamp k (fs.entries.length : Int))
            (set_watermark fs
              ((fs.entries.length : Int) -
                max_clamp k (fs.entries.length : Int)))
    | false =>
      (true, backlog_limit, set_watermark fs (fs.entries.length : Int))
  | some l => plan_enqueue backlog_limit l fs

/-- The `UpdateResult` enum of `subscription.py`. -/
inductive UpdateResult where
  | SUCCESS
  | UNNEEDED
  | FAILURE
  | ATTEMPT_AGAIN
deriving DecidableEq

/-- `MAX_RECURSIVE_ATTEMPTS` from `subscription.py`. -/
def MAX_RECURSIVE_ATTEMPTS : Nat := 10

/-- A feedparser response, reduced to the fields `get_feed` and its helpers
inspect: the HTTP status (absent when feedparsing a local file), the resolved
location `href`, the bozo flag, the response etag, and the parsed entries
already in the shape `load_rss_info` stores them. -/
structure Parsed where
  status : Option Int
  href : String
  bozo : Bool
  petag : Option String
  entries : List Entry
deriving DecidableEq

/-- The subscription state read and written by `get_feed`: the resolved URL,
the temporary-redirect slot, and the feed state's etag and entries. -/
structure RetrState where
  current_url : Option String
  temp_url : Option String
  etag : Option String
  entries : List Entry
deriving DecidableEq

/-- Classification done inside `_feedparser_parse_with_options` after the
transport call: a bozo body with no status is a `FAILURE`, a 304 is
`UNNEEDED`, anything else proceeds as `SUCCESS`. -/
def feedparser_classify (p : Parsed) : UpdateResult :=
  if p.status = none ∧ p.bozo then UpdateResult.FAILURE
  else if p.status = some 304 then UpdateResult.UNNEEDED
  else UpdateResult.SUCCESS

/-- `Subscription._handle_http_codes`: absent status is a success (local
file); 404 fails leaving the URL alone; 401/410 fail clearing the current
URL; 301/308 rewrite the current URL and retry; 302/303/307 stash the current
URL in the temp slot, take the new location and retry; any other non-200
retries without touching URLs; 200 succeeds. -/
def handle_http_codes (st : RetrState) (p : Parsed) : RetrState × UpdateResult :=
  match p.status with
  | none => (st, UpdateResult.SUCCESS)
  | some s =>
    if s = 404 then (st, UpdateResult.FAILURE)
    else if s = 401 ∨ s = 410 then
      ({ st with current_url := none }, UpdateResult.FAILURE)
    else if s = 301 ∨ s = 308 then
      ({ st with current_url := some p.href }, UpdateResult.ATTEMPT_AGAIN)
    else if s = 302 ∨ s = 303 ∨ s = 307 then
      ({ st with temp_url := st.current_url, current_url := some p.href },
       UpdateResult.ATTEMPT_AGAIN)
    else if s ≠ 200 then (st, UpdateResult.ATTEMPT_AGAIN)
    else (st, UpdateResult.SUCCESS)

/-- One attempt of `get_feed` after the guards: the unconditional etag
refresh from the response, the bozo/304 classification of
`_feedparser_parse_with_options`, then `_handle_http_codes`; a classified
`SUCCESS` loads the entries (`load_rss_info` replaces them wholesale).  An
`ATTEMPT_AGAIN` outcome is returned to the caller, which recurses. -/
def get_feed_step (p : Parsed) (st : RetrState) : UpdateResult × RetrState :=
  let st1 := { st with etag := p.petag.orElse (fun _ => st.etag) }
  match feedparser_classify p with
  | UpdateResult.UNNEEDED => (UpdateResult.UNNEEDED, st1)
  | UpdateResult.SUCCESS =>
    let r2 := handle_http_codes st1 p
    match r2.2 with
    | UpdateResult.SUCCESS =>
      (UpdateResult.SUCCESS, { r2.1 with entries := p.entries })
    | c => (c, r2.1)
  | c => (c, st1)

/-- Worker for `Subscription.get_feed`.  The structure mirrors the source's
`_helper` exactly: first the attempt bound, then the empty-URL check, then
one `get_feed_step`, and on `ATTEMPT_AGAIN` a recursive call at
`attempt + 1` followed by the restore `current_url := temp` whenever the
captured `temp_url` (read after `_handle_http_codes` ran) was non-None.
Note the source never clears `temp_url`.  The source recursion is bounded
because every recursive call increments `attempt` and any call with
`attempt > 10` returns at once; the structural `gas` argument renders that
bound, with `gas` kept equal to `MAX_RECURSIVE_ATTEMPTS + 1 - attempt`, so
the `gas = 0` arm is reached only when `attempt > 10` already holds and the
arm returns exactly what the source's attempt guard returns there. -/
def get_feed_go (env : Nat → Parsed) : Nat → RetrState → Nat →
    UpdateResult × RetrState
  | 0, st, _attempt => (UpdateResult.FAILURE, st)
  | gas' + 1, st, attempt =>
    if attempt > MAX_RECURSIVE_ATTEMPTS then (UpdateResult.FAILURE, st)
    else
      match st.current_url with
      | none => (UpdateResult.FAILURE, st)
      | some u =>
        if u = "" then (UpdateResult.FAILURE, st)
        else
          match get_feed_step (env attempt) st with
          | (UpdateResult.ATTEMPT_AGAIN, st2) =>
            match st2.temp_url with
            | some t =>
              ((get_feed_go env gas' st2 (attempt + 1)).1,
               { (get_feed_go env gas' st2 (attempt + 1)).2 with
                   current_url := some t })
            | none => get_feed_go env gas' st2 (attempt + 1)
          | (c, st2) => (c, st2)

/-- `Subscription.get_feed`, with the response for each attempt supplied by
`env`. -/
def get_feed (env : Nat → Parsed) (st : RetrState) (attempt : Nat) :
    UpdateResult × RetrState :=
  get_feed_go env (MAX_RECURSIVE_ATTEMPTS + 1 - attempt) st attempt

/-- The `Subscription` object, as decoded from cache or parsed from user
config.  `url` is the attribute set only by `parse_from_user_yaml`;
`provided_url`/`current_url` are the `_provided_url`/`_current_url`
attributes set by the constructor and by `decode_subscription`.  A field
holds `none` when the attribute is absent or `None`. -/
structure Subscription where
  name : String
  url : Option String
  provided_url : Option String
  current_url : Option String
  directory : Option String
  download_backlog : Option Bool
  backlog_limit : Option Int
  use_title_as_filename : Option Bool
  feed_state : Option FeedState
deriving DecidableEq

/-- The embedded feed-state record of a cached subscription; every key is
optional and `_FeedState.__init__` supplies the defaults.  (`last_modified`
is always persisted as `None` by `as_dict` and is dropped here.) -/
structure FeedDict where
  fentries : Option (List Entry)
  fentries_state_dict : Option (List (Int × Bool))
  fqueue : Option (List (Int × Bool))
  fetag : Option String
  flatest_entry_number : Option (Option Int)
deriving DecidableEq

/-- `_FeedState.__init__` given a decoded dictionary (or `None` when the
cache record had no `feed_state` key). -/
def FeedState.ofDict : Option FeedDict → FeedState
  | none => FeedState.default
  | some d =>
    { entries := d.fentries.getD []
      entries_state_dict := d.fentries_state_dict.getD []
      queue := d.fqueue.getD []
      latest_entry_number := (d.flatest_entry_number).getD none
      etag := d.fetag
      has_state := true }

/-- A persisted cache record for one subscription: the keys
`decode_subscription` reads, each possibly absent. -/
structure SubRecord where
  rname : Option String
  rcurrent_url : Option String
  rprovided_url : Option String
  rdirectory : Option String
  rdownload_backlog : Option Bool
  rbacklog_limit : Option Int
  ruse_title_as_filename : Option Bool
  rfeed_state : Option FeedDict
deriving DecidableEq

/-- `Subscription.decode_subscription`: if any of `name`, `_current_url`,
`_provided_url` is missing the method logs and returns `None` (it does not
raise); otherwise the remaining fields are filled with `.get` defaults and
the feed state is rebuilt. -/
def decode_subscription (r : SubRecord) : Option Subscription :=
  match r.rname, r.rcurrent_url, r.rprovided_url with
  | some nm, some cu, some pu =>
    some { name := nm
           url := none
           provided_url := some pu
           current_url := some cu
           directory := r.rdirectory
           download_backlog := r.rdownload_backlog
           backlog_limit := r.rbacklog_limit
           use_title_as_filename := r.ruse_title_as_filename
           feed_state := some (FeedState.ofDict r.rfeed_state) }
  | _, _, _ => none

/-- Modelled from the spec: `config.py` line 311 reads
`decoded_sub.original_url`, an accessor that does not appear in the
`subscription.py` under `src/`; per the spec, the cache's by-url table is
keyed by the originally provided URL, which is the `_provided_url`
attribute. -/
def Subscription.original_url (s : Subscription) : Option String :=
  s.provided_url

/-- The two reconciliation lookup tables built by `_load_cache_settings`.
The by-url table is keyed by the value of `original_url`, which Python would
happily use even if it were `None`, hence the `Option String` key. -/
structure CacheMap where
  by_name : List (String × Subscription)
  by_url : List (Option String × Subscription)
deriving DecidableEq

/-- `Config._load_cache_settings` over the decoded record list.  The source
wraps `decode_subscription` in `try/except error.MalformedSubscriptionError`,
but `decode_subscription` returns `None` rather than raising, so the handler
never fires and the subsequent `decoded_sub.name` raises an uncaught
AttributeError, aborting the whole load — rendered as `.error`. -/
def load_cache_settings_go (records : List SubRecord) (m : CacheMap) :
    Except String CacheMap :=
  match records with
  | [] => Except.ok m
  | r :: rest =>
    match decode_subscription r with
    | none => Except.error "AttributeError: NoneType object has no attribute name"
    | some s =>
      load_cache_settings_go rest
        { by_name := assocInsert m.by_name s.name s
          by_url := assocInsert m.by_url s.original_url s }

/-- `Config._load_cache_settings` starting from empty tables. -/
def load_cache_settings (records : List SubRecord) : Except String CacheMap :=
  load_cache_settings_go records { by_name := [], by_url := [] }

/-- The `Config.settings` dictionary as `Config.__init__` creates it: keys
`directory`, `backlog_limit`, `use_title_as_filename` (and only those; in
particular there is no `download_backlog` key). -/
structure Settings where
  directory : String
  backlog_limit : Option Int
  use_title_as_filename : Bool
deriving DecidableEq

/-- `Subscription.default_missing_fields`: each policy field that is `None`
is replaced by the corresponding `settings` entry, and a missing feed state
becomes a fresh `_FeedState()`.  The first lookup is
`settings["download_backlog"]`, a key the config never creates, so a
subscription whose `download_backlog` is unset makes the method raise
KeyError — rendered as `none`. -/
def default_missing_fields (settings : Settings) (s : Subscription) :
    Option Subscription :=
  match s.download_backlog with
  | none => none
  | some _ =>
    some { s with
      backlog_limit :=
        match s.backlog_limit with
        | none => settings.backlog_limit
        | some b => some b
      use_title_as_filename :=
        some (s.use_title_as_filename.getD settings.use_title_as_filename)
      feed_state := some (s.feed_state.getD FeedState.default) }

/-- Modelled from the spec: the `Subscription.update` method invoked by
`Config.load_state` (line 115 of `config.py`) is absent from the
`subscription.py` under `src/`; per the spec it overwrites the name, both
URL attributes (`set_original=True`) and the directory with the current
user-config values, leaving every persisted field alone. -/
def sub_update (c : Subscription) (name : String) (url : Option String)
    (directory : Option String) : Subscription :=
  { c with name := name, provided_url := url, current_url := url,
           directory := directory }

/-- The body of `Config.load_state`'s reconciliation loop for one user
subscription: prefer the cached subscription of the same name, else the one
of the same url, else keep the freshly parsed one; then overwrite the
identity fields from user config and fill remaining defaults. -/
def reconcile_one (settings : Settings) (m : CacheMap) (s : Subscription) :
    Option Subscription :=
  let chosen :=
    match assocLookup m.by_name s.name with
    | some c => c
    | none =>
      match assocLookup m.by_url s.url with
      | some c => c
      | none => s
  default_missing_fields settings (sub_update chosen s.name s.url s.directory)

/-- Python `str.zfill` for the nonnegative decimal strings `get_status`
feeds it. -/
def pyZfill (s : String) (w : Nat) : String :=
  if s.length < w then
    String.mk (List.replicate (w - s.length) (Char.ofNat 48)) ++ s
  else s

/-- A single-quote character, kept out of string literals. -/
def squote : String := String.singleton (Char.ofNat 39)

/-- `Subscription.get_status`: formats
`"{}/{} - '{}' |{}|"` with the padded one-based position, the total count,
the name, and `latest_entry_number - 1`.  When the watermark (or the whole
feed state) is unset the subtraction is `None - 1`, an uncaught TypeError —
rendered as `none`. -/
def get_status (s : Subscription) (index : Nat) (total_subs : Nat) :
    Option String :=
  match s.feed_state with
  | none => none
  | some fs =>
    match fs.latest_entry_number with
    | none => none
    | some l =>
      some (pyZfill (toString (index + 1)) (toString total_subs).length ++
        "/" ++ toString total_subs ++ " - " ++ squote ++ s.name ++ squote ++
        " |" ++ toString (l - 1) ++ "|")

/-- The loop of `Config.list`: call `get_status` on every subscription in
order; the first TypeError aborts the command — rendered as `none`. -/
def config_list_go (total : Nat) (i : Nat) :
    List Subscription → Option (List String)
  | [] => some []
  | s :: rest =>
    match get_status s i total with
    | none => none
    | some line => (config_list_go total (i + 1) rest).map (fun ls => line :: ls)

/-- `Config.list` over the reconciled subscription list. -/
def config_list (subs : List Subscription) : Option (List String) :=
  config_list_go subs.length 0 subs

/-- A feed of `n` dummy entries, newest first, each with one enclosure. -/
def mkEntries (n : Nat) : List Entry :=
  (List.range n).map (fun i => { title := toString i, urls := ["u"] })

/-- Feed state for the C1 experiment: ten entries, watermark 9, the single
queued job is the newest entry (one-based index 10) — exactly the situation
the repository's own `test_attempt_update_new_entry` sets up. -/
def fsTen : FeedState :=
  { entries := mkEntries 10
    entries_state_dict := []
    queue := [(10, false)]
    latest_entry_number := some 9
    etag := none
    has_state := true }

/-- C1.  After all enclosures of the queued item with one-based index 10
download successfully, the drain leaves the watermark at 9 instead of
advancing it to `max(9, 10) = 10`: the source compares and stores the
already decremented `entry_num = 9`.  The half of the claim about
`entriesStatus[index-1]` does hold (key 9 is set).  The repository's own
test `test_attempt_update_new_entry` asserts the watermark reaches 10 on
this very scenario, so the code contradicts its own test suite. -/
theorem download_queue_watermark_not_advanced :
    download_queue none fsTen =
      some { fsTen with queue := [], entries_state_dict := [(9, true)],
                        latest_entry_number := some 9 } ∧
    (download_queue none fsTen).map FeedState.latest_entry_number ≠
      some (some 10) := by
  constructor
  · rfl
  · decide

/-- Feed state for the C2 experiment: five entries, two queued jobs. -/
def fsFive : FeedState :=
  { entries := mkEntries 5
    entries_state_dict := []
    queue := [(3, false), (4, false)]
    latest_entry_number := some 0
    etag := none
    has_state := true }

/-- C2.  Interrupting the drain while the item with one-based index 3 is
downloading pushes `(2, true)` — the decremented `entry_num` — onto the
front of the queue, not the claimed `(3, true)`: a resumed drain would
re-process item 2 and item 3 is lost from the queue. -/
theorem download_queue_interrupt_requeues_decremented_index :
    download_queue (some 0) fsFive =
      some { fsFive with queue := [(2, true), (4, false)] } ∧
    (download_queue (some 0) fsFive).map FeedState.queue ≠
      some [(3, true), (4, false)] := by
  constructor
  · rfl
  · decide

/-- Feed state for the C6 experiment: five entries with index 2 already
queued. -/
def fsQueued : FeedState :=
  { entries := mkEntries 5
    entries_state_dict := []
    queue := [(2, false)]
    latest_entry_number := some 0
    etag := none
    has_state := true }

/-- C6.  `enqueue [2]` on a queue already holding item 2 re-appends it:
the dedup test `num not in self.feed_state.queue` compares the int `2`
against `(index, overwrite)` tuples, which is never equal in Python, so
nothing is ever filtered as a duplicate.  This contradicts the
`Command.enqueue` help text in `config.py` ("Items will be skipped if
already in queue, or invalid\...").  The range filtering half of the claim
does hold: 0 and 6 are dropped below. -/
theorem enqueue_readds_queued_item :
    enqueue fsQueued [2] =
      ([(2, true)], { fsQueued with queue := [(2, false), (2, true)] }) ∧
    enqueue fsQueued [0, 6, 2] =
      ([(2, true)], { fsQueued with queue := [(2, false), (2, true)] }) := by
  constructor
  · rfl
  · rfl

/-- A well-formed cache record. -/
def goodRecord : SubRecord :=
  { rname := some "good"
    rcurrent_url := some "cu"
    rprovided_url := some "pu"
    rdirectory := some "d"
    rdownload_backlog := some true
    rbacklog_limit := some 1
    ruse_title_as_filename := some false
    rfeed_state := none }

/-- A cache record with no `name` key. -/
def badRecord : SubRecord :=
  { rname := none
    rcurrent_url := some "cu2"
    rprovided_url := some "pu2"
    rdirectory := none
    rdownload_backlog := none
    rbacklog_limit := none
    ruse_title_as_filename := none
    rfeed_state := none }

/-- C3.  A record missing `name` does not merely lose itself: because
`decode_subscription` returns `None` instead of raising
`MalformedSubscriptionError`, the `except` arm of `_load_cache_settings`
never fires, `decoded_sub.name` raises an uncaught AttributeError, and the
whole cache load aborts — the well-formed record that follows is never
entered into the maps.  The same record list without the malformed record
loads fine, and the malformed record alone is indeed the only one whose
decode fails. -/
theorem load_cache_aborts_on_malformed_record :
    (load_cache_settings [badRecord, goodRecord]).isOk = false ∧
    decode_subscription badRecord = none ∧
    (decode_subscription goodRecord).isSome = true ∧
    (load_cache_settings [goodRecord]).isOk = true ∧
    ((load_cache_settings [goodRecord]).toOption.bind
      (fun m => assocLookup m.by_name "good")).isSome = true := by
  refine ⟨rfl, rfl, rfl, rfl, rfl⟩

/-- C8.  Any `get_feed` call whose attempt count exceeds
`MAX_RECURSIVE_ATTEMPTS = 10` returns `FAILURE` with the subscription state
untouched, for every possible sequence of transport responses — in
particular no fetch result is consulted and the entries stay exactly as
they were (empty if they were empty).  Together with the totality of
`get_feed` (each retry recurses at `attempt + 1` and this guard stops it),
no redirect chain can cause unbounded attempts. -/
theorem get_feed_attempt_bound (env : Nat → Parsed) (st : RetrState)
    (attempt : Nat) (h : attempt > MAX_RECURSIVE_ATTEMPTS) :
    get_feed env st attempt = (UpdateResult.FAILURE, st) := by
  unfold get_feed
  have hg : MAX_RECURSIVE_ATTEMPTS + 1 - attempt = 0 := by
    unfold MAX_RECURSIVE_ATTEMPTS at h ⊢
    omega
  rw [hg]
  rfl

/-- Closed witness for `get_feed_attempt_bound` at attempt 11. -/
def constParsed : Nat → Parsed :=
  fun _ => { status := some 301, href := "r", bozo := false, petag := none,
             entries := [] }

/-- Initial retrieval state used by the closed examples. -/
def stA : RetrState :=
  { current_url := some "A", temp_url := none, etag := none, entries := [] }

/-- Witness: the attempt bound fires concretely at attempt 11, with entries
left empty. -/
theorem get_feed_attempt_bound_witness :
    11 > MAX_RECURSIVE_ATTEMPTS ∧
    get_feed constParsed stA 11 = (UpdateResult.FAILURE, stA) ∧
    (get_feed constParsed stA 11).2.entries = [] :=
  ⟨by decide, get_feed_attempt_bound constParsed stA 11 (by decide),
   by rw [get_feed_attempt_bound constParsed stA 11 (by decide)]; rfl⟩

/-- `plan_enqueue` always succeeds and appends exactly `backlog_indices`
(the empty list when the watermark has caught up with the entry count). -/
theorem plan_enqueue_eq (lim : Option Int) (l : Int) (fs : FeedState) :
    plan_enqueue lim l fs =
      (true, lim,
        { fs with queue := fs.queue ++ backlog_indices l (fs.entries.length : Int) }) := by
  unfold plan_enqueue
  split
  · rename_i h
    have hz : backlog_indices l (fs.entries.length : Int) = [] := by
      unfold backlog_indices
      have hn : ((fs.entries.length : Int) - l).toNat = 0 := by omega
      rw [hn]
      rfl
    rw [hz, List.append_nil]
  · rfl

/-- C7.  First successful contact with the backlog enabled and a positive
limit `k`: the limit is clamped to `min(k, totalEntries)`, the watermark is
set to `totalEntries - min(k, totalEntries)`, and exactly the clamped number
of newest entries are appended to the queue oldest-first, as the one-based
indices `watermark+1 .. totalEntries`, each with overwrite `false`. -/
theorem first_contact_backlog_plan (fs : FeedState) (k : Int)
    (h1 : fs.latest_entry_number = none) (h2 : 0 < k) :
    attempt_update_plan true (some k) fs =
      (true, some (min k (fs.entries.length : Int)),
        { fs with
          latest_entry_number :=
            some ((fs.entries.length : Int) - min k (fs.entries.length : Int)),
          queue := fs.queue ++
            (List.range (min k (fs.entries.length : Int)).toNat).map
              (fun j =>
                ((fs.entries.length : Int) - min k (fs.entries.length : Int) +
                  1 + (j : Int), false)) }) := by
  have hk0 : ¬ k = 0 := by omega
  have hkneg : ¬ k < 0 := by omega
  unfold attempt_update_plan
  rw [h1]
  simp only [hk0, hkneg, ite_true, ite_false, if_true, if_false]
  rw [plan_enqueue_eq]
  have harg : (fs.entries.length : Int) -
      ((fs.entries.length : Int) - max_clamp k (fs.entries.length : Int)) =
      min k (fs.entries.length : Int) := by
    unfold max_clamp
    omega
  unfold set_watermark backlog_indices
  simp only []
  rw [harg]
  unfold max_clamp
  rfl

/-- Witness for `first_contact_backlog_plan`: three entries, limit 2 — the
two newest entries (one-based indices 2 and 3) are queued oldest-first with
overwrite `false`, the watermark becomes 1 and the limit stays 2. -/
def fsFresh : FeedState :=
  { entries := mkEntries 3
    entries_state_dict := []
    queue := []
    latest_entry_number := none
    etag := none
    has_state := true }

/-- Closed witness applying `first_contact_backlog_plan` at `k = 2`,
`totalEntries = 3`. -/
theorem first_contact_backlog_plan_witness :
    fsFresh.latest_entry_number = none ∧ (0 : Int) < 2 ∧
    attempt_update_plan true (some 2) fsFresh =
      (true, some 2,
        { fsFresh with latest_entry_number := some 1,
                       queue := [(2, false), (3, false)] }) := by
  refine ⟨rfl, by decide, ?_⟩
  have h := first_contact_backlog_plan fsFresh 2 rfl (by decide)
  rw [h]
  rfl

/-- C10.  `get_status`, called by the `list` command once per subscription,
evaluates `latest_entry_number - 1`; on a subscription whose watermark was
never set this is `None - 1`, an uncaught TypeError instead of a status
string, and the whole `list` loop dies on the first such subscription.  A
status string is produced exactly when the watermark is set. -/
theorem get_status_requires_set_watermark :
    (∀ (s : Subscription) (i t : Nat) (fs : FeedState),
      s.feed_state = some fs → fs.latest_entry_number = none →
      get_status s i t = none) ∧
    (∀ (s : Subscription) (i t : Nat) (fs : FeedState) (l : Int),
      s.feed_state = some fs → fs.latest_entry_number = some l →
      (get_status s i t).isSome = true) ∧
    (∀ (t i : Nat) (fs : FeedState) (rest : List Subscription)
      (s : Subscription),
      s.feed_state = some fs → fs.latest_entry_number = none →
      config_list_go t i (s :: rest) = none) := by
  refine ⟨?_, ?_, ?_⟩
  · intro s i t fs hfs hl
    simp [get_status, hfs, hl]
  · intro s i t fs l hfs hl
    simp [get_status, hfs, hl]
  · intro t i fs rest s hfs hl
    simp [config_list_go, get_status, hfs, hl]

/-- A subscription fresh from reconciliation with no successful update yet:
its feed state exists but the watermark is unset. -/
def subNoWatermark : Subscription :=
  { name := "fresh"
    url := some "u"
    provided_url := some "u"
    current_url := some "u"
    directory := some "d"
    download_backlog := some true
    backlog_limit := some 1
    use_title_as_filename := some false
    feed_state := some FeedState.default }

/-- A subscription whose watermark has been set. -/
def subWithWatermark : Subscription :=
  { subNoWatermark with
      name := "seen"
      feed_state := some { FeedState.default with latest_entry_number := some 3 } }

/-- Closed witness applying `get_status_requires_set_watermark` to concrete
subscriptions: the unset-watermark subscription has no status string and
kills the `list` loop; the set-watermark one yields a status string. -/
theorem get_status_requires_set_watermark_witness :
    get_status subNoWatermark 0 2 = none ∧
    (get_status subWithWatermark 1 2).isSome = true ∧
    config_list_go 2 0 [subNoWatermark, subWithWatermark] = none :=
  ⟨get_status_requires_set_watermark.1 subNoWatermark 0 2 FeedState.default
      rfl rfl,
   get_status_requires_set_watermark.2.1 subWithWatermark 1 2
      { FeedState.default with latest_entry_number := some 3 } 3 rfl rfl,
   get_status_requires_set_watermark.2.2 2 0 FeedState.default
      [subWithWatermark] subNoWatermark rfl rfl⟩

/-- C4.  Reconciliation of one user-config subscription against the cache
maps: a cached subscription of the same name is adopted even when the URL
differs; failing that, one with the same URL is adopted even when the name
differs; failing both, the subscription keeps its (absent, hence freshly
defaulted) feed state.  In the matched cases the adopted subscription's
name, both URL attributes and directory are overwritten with the current
user-config values, while the cached feed state and policy fields are kept
(policy fields still `None` are filled from the global settings; the
hypothesis that `download_backlog` is set keeps `default_missing_fields`
from its KeyError path, see its docstring). -/
theorem reconcile_adopts_cached_feed_state (settings : Settings)
    (m : CacheMap) :
    (∀ (s c : Subscription) (b : Bool),
      assocLookup m.by_name s.name = some c →
      c.download_backlog = some b →
      reconcile_one settings m s = some
        { name := s.name
          url := c.url
          provided_url := s.url
          current_url := s.url
          directory := s.directory
          download_backlog := c.download_backlog
          backlog_limit :=
            match c.backlog_limit with
            | none => settings.backlog_limit
            | some x => some x
          use_title_as_filename :=
            some (c.use_title_as_filename.getD settings.use_title_as_filename)
          feed_state := some (c.feed_state.getD FeedState.default) }) ∧
    (∀ (s c : Subscription) (b : Bool),
      assocLookup m.by_name s.name = none →
      assocLookup m.by_url s.url = some c →
      c.download_backlog = some b →
      reconcile_one settings m s = some
        { name := s.name
          url := c.url
          provided_url := s.url
          current_url := s.url
          directory := s.directory
          download_backlog := c.download_backlog
          backlog_limit :=
            match c.backlog_limit with
            | none => settings.backlog_limit
            | some x => some x
          use_title_as_filename :=
            some (c.use_title_as_filename.getD settings.use_title_as_filename)
          feed_state := some (c.feed_state.getD FeedState.default) }) ∧
    (∀ (s : Subscription) (b : Bool),
      assocLookup m.by_name s.name = none →
      assocLookup m.by_url s.url = none →
      s.download_backlog = some b →
      s.feed_state = none →
      reconcile_one settings m s = some
        { name := s.name
          url := s.url
          provided_url := s.url
          current_url := s.url
          directory := s.directory
          download_backlog := s.download_backlog
          backlog_limit :=
            match s.backlog_limit with
            | none => settings.backlog_limit
            | some x => some x
          use_title_as_filename :=
            some (s.use_title_as_filename.getD settings.use_title_as_filename)
          feed_state := some FeedState.default }) := by
  refine ⟨?_, ?_, ?_⟩
  · intro s c b h1 hb
    simp [reconcile_one, h1, sub_update, default_missing_fields, hb]
  · intro s c b h1 h2 hb
    simp [reconcile_one, h1, h2, sub_update, default_missing_fields, hb]
  · intro s b h1 h2 hb hfs
    simp [reconcile_one, h1, h2, sub_update, default_missing_fields, hb, hfs]

/-- Global settings fixture. -/
def settings0 : Settings :=
  { directory := "data", backlog_limit := some 1, use_title_as_filename := false }

/-- Feed history with watermark 7. -/
def fsMark7 : FeedState :=
  { FeedState.default with latest_entry_number := some 7, has_state := true }

/-- Feed history with watermark 2. -/
def fsMark2 : FeedState :=
  { FeedState.default with latest_entry_number := some 2, has_state := true }

/-- Cached subscription "a" with feed history (watermark 7). -/
def cachedA : Subscription :=
  { name := "a"
    url := none
    provided_url := some "x"
    current_url := some "x2"
    directory := some "olddir"
    download_backlog := some true
    backlog_limit := some 5
    use_title_as_filename := some true
    feed_state := some fsMark7 }

/-- Cached subscription "b" with feed history (watermark 2). -/
def cachedB : Subscription :=
  { name := "b"
    url := none
    provided_url := some "y"
    current_url := some "y"
    directory := some "bdir"
    download_backlog := some false
    backlog_limit := none
    use_title_as_filename := none
    feed_state := some fsMark2 }

/-- Cache maps holding `cachedA` and `cachedB`. -/
def cacheMap0 : CacheMap :=
  { by_name := [("a", cachedA), ("b", cachedB)]
    by_url := [(some "x", cachedA), (some "y", cachedB)] }

/-- User subscription that kept the name "a" but changed the URL. -/
def userKeptName : Subscription :=
  { name := "a"
    url := some "z"
    provided_url := none
    current_url := none
    directory := some "newdir"
    download_backlog := some true
    backlog_limit := some 3
    use_title_as_filename := some false
    feed_state := none }

/-- User subscription that kept the URL "y" but was renamed to "c". -/
def userKeptUrl : Subscription :=
  { userKeptName with name := "c", url := some "y", directory := some "cdir" }

/-- User subscription matching nothing in the cache. -/
def userUnmatched : Subscription :=
  { userKeptName with name := "n", url := some "w", directory := some "ndir" }

/-- Closed witness applying `reconcile_adopts_cached_feed_state` to the
three concrete scenarios: name match despite a URL change (watermark 7
adopted), URL match despite a rename (watermark 2 adopted), and no match
(fresh empty feed state); in every case the name, URLs and directory are
the user-config values. -/
theorem reconcile_adopts_cached_feed_state_witness :
    (reconcile_one settings0 cacheMap0 userKeptName).map
        (fun r => (r.feed_state, r.name, r.provided_url, r.current_url,
                   r.directory)) =
      some (some fsMark7, "a", some "z", some "z", some "newdir") ∧
    (reconcile_one settings0 cacheMap0 userKeptUrl).map
        (fun r => (r.feed_state, r.name, r.provided_url, r.current_url,
                   r.directory)) =
      some (some fsMark2, "c", some "y", some "y", some "cdir") ∧
    (reconcile_one settings0 cacheMap0 userUnmatched).map
        (fun r => (r.feed_state, r.name, r.provided_url, r.current_url,
                   r.directory)) =
      some (some FeedState.default, "n", some "w", some "w", some "ndir") := by
  refine ⟨?_, ?_, ?_⟩
  · rw [(reconcile_adopts_cached_feed_state settings0 cacheMap0).1
      userKeptName cachedA true rfl rfl]
    rfl
  · rw [(reconcile_adopts_cached_feed_state settings0 cacheMap0).2.1
      userKeptUrl cachedB false rfl rfl rfl]
    rfl
  · rw [(reconcile_adopts_cached_feed_state settings0 cacheMap0).2.2
      userUnmatched true rfl rfl rfl rfl]
    rfl


/-- The spec's feed-state invariant, status half: every key of
`entriesStatus` is strictly below the entry count. -/
def keys_bound (fs : FeedState) : Prop :=
  ∀ p ∈ fs.entries_state_dict, p.1 < (fs.entries.length : Int)

/-- Decidability of `keys_bound`, so witnesses can evaluate it. -/
instance keys_bound_dec (fs : FeedState) : Decidable (keys_bound fs) :=
  inferInstanceAs
    (Decidable (∀ p ∈ fs.entries_state_dict, p.1 < (fs.entries.length : Int)))

/-- The data model's queue shape: pending jobs carry one-based indices into
the entry list (which is how both `attempt_update` and `enqueue` produce
them). -/
def queue_wf (fs : FeedState) : Prop :=
  ∀ p ∈ fs.queue, 1 ≤ p.1 ∧ p.1 ≤ (fs.entries.length : Int)

/-- Decidability of `queue_wf`, so witnesses can evaluate it. -/
instance queue_wf_dec (fs : FeedState) : Decidable (queue_wf fs) :=
  inferInstanceAs
    (Decidable (∀ p ∈ fs.queue, 1 ≤ p.1 ∧ p.1 ≤ (fs.entries.length : Int)))

/-- The spec's feed-state invariant, watermark half, as a relation between
before and after: an unset watermark may become anything, a set watermark
may only grow and never becomes unset. -/
def watermark_le (a b : Option Int) : Bool :=
  match a, b with
  | none, _ => true
  | some x, some y => decide (x ≤ y)
  | some _, none => false

/-- `watermark_le` is reflexive. -/
theorem watermark_le_refl (a : Option Int) : watermark_le a a = true := by
  cases a <;> simp [watermark_le]

/-- Inserting a key below the bound keeps every key below the bound. -/
theorem assocInsert_bound {d : List (Int × Bool)} {N k : Int} {v : Bool}
    (hd : ∀ p ∈ d, p.1 < N) (hk : k < N) :
    ∀ p ∈ assocInsert d k v, p.1 < N := by
  intro p hp
  unfold assocInsert at hp
  by_cases h : d.any (fun q => decide (q.1 = k))
  · rw [if_pos h] at hp
    obtain ⟨q, hq, hqe⟩ := List.mem_map.mp hp
    by_cases hqk : q.1 = k
    · rw [if_pos hqk] at hqe
      rw [← hqe]
      exact hk
    · rw [if_neg hqk] at hqe
      rw [← hqe]
      exact hd q hq
  · rw [if_neg h] at hp
    rcases List.mem_append.mp hp with hmem | hmem
    · exact hd p hmem
    · rw [List.mem_singleton.mp hmem]
      exact hk

/-- An in-range nonnegative Python index always yields an element. -/
theorem pyListGet_in_range {α : Type} (l : List α) (i : Int) (h0 : 0 ≤ i)
    (h1 : i < (l.length : Int)) : (pyListGet l i).isSome = true := by
  unfold pyListGet
  rw [if_pos ⟨h0, h1⟩]
  cases hg : l.get? i.toNat with
  | none =>
    have := List.get?_eq_none.mp hg
    omega
  | some a => rfl

/-- Single induction over a drain: with the watermark set and every queued
index one-based and in range, the drain (interrupted anywhere or not)
returns successfully, never lowers the watermark, and keeps every status
key below the entry count. -/
theorem drainGo_preserves (intr : Option Nat) (entries : List Entry) :
    ∀ (q : List (Int × Bool)) (step : Nat) (dict : List (Int × Bool))
      (l : Int),
    (∀ p ∈ q, 1 ≤ p.1 ∧ p.1 ≤ (entries.length : Int)) →
    (∀ p ∈ dict, p.1 < (entries.length : Int)) →
    ∃ q' d' l',
      drainGo intr step q entries dict (some l) = some (q', d', some l') ∧
      l ≤ l' ∧ ∀ p ∈ d', p.1 < (entries.length : Int) := by
  intro q
  induction q with
  | nil =>
    intro step dict l _ hd
    exact ⟨[], dict, l, rfl, le_refl l, hd⟩
  | cons hd_pair rest ih =>
    intro step dict l hq hd
    obtain ⟨n, ov⟩ := hd_pair
    have hn := hq (n, ov) (List.mem_cons_self _ _)
    by_cases hintr : intr = some step
    · refine ⟨(n - 1, true) :: rest, dict, l, ?_, le_refl l, hd⟩
      unfold drainGo
      rw [if_pos hintr]
    · have hget :
          (pyListGet entries ((entries.length : Int) - ((n - 1) + 1))).isSome
            = true := by
        apply pyListGet_in_range
        · omega
        · omega
      obtain ⟨e, he⟩ := Option.isSome_iff_exists.mp hget
      obtain ⟨q', d', l', heq, hle, hbd⟩ :=
        ih (step + 1) (assocInsert dict (n - 1) true)
          (if (n - 1 : Int) > l then n - 1 else l)
          (fun p hp => hq p (List.mem_cons_of_mem _ hp))
          (assocInsert_bound hd (by omega))
      refine ⟨q', d', l', ?_, ?_, hbd⟩
      · unfold drainGo
        rw [if_neg hintr, he]
        exact heq
      · have hstep : l ≤ (if (n - 1 : Int) > l then n - 1 else l) := by
          split <;> omega
        omega

/-- The planning stage never touches entries or the status dict, and never
lowers a set watermark. -/
theorem attempt_update_plan_state (bl : Bool) (lim : Option Int)
    (fs : FeedState) :
    (attempt_update_plan bl lim fs).2.2.entries = fs.entries ∧
    (attempt_update_plan bl lim fs).2.2.entries_state_dict =
      fs.entries_state_dict ∧
    watermark_le fs.latest_entry_number
      (attempt_update_plan bl lim fs).2.2.latest_entry_number = true := by
  unfold attempt_update_plan
  cases hl : fs.latest_entry_number with
  | none =>
    cases bl with
    | false =>
      dsimp only
      refine ⟨rfl, rfl, ?_⟩
      simp [watermark_le, set_watermark]
    | true =>
      dsimp only
      cases lim with
      | none =>
        dsimp only
        rw [plan_enqueue_eq]
        refine ⟨rfl, rfl, ?_⟩
        simp [watermark_le, set_watermark]
      | some k =>
        dsimp only
        by_cases hk0 : k = 0
        · rw [if_pos hk0, plan_enqueue_eq]
          refine ⟨rfl, rfl, ?_⟩
          simp [watermark_le, set_watermark]
        · rw [if_neg hk0]
          by_cases hkn : k < 0
          · rw [if_pos hkn]
            exact ⟨rfl, rfl, by rw [hl]; simp [watermark_le]⟩
          · rw [if_neg hkn, plan_enqueue_eq]
            refine ⟨rfl, rfl, ?_⟩
            simp [watermark_le, set_watermark]
  | some l =>
    dsimp only
    rw [plan_enqueue_eq]
    refine ⟨rfl, rfl, ?_⟩
    rw [hl]
    simp [watermark_le]

/-- C9.  The three queue-and-watermark operations on a subscription's feed
state — `attempt_update`'s planning-and-enqueueing stage, `download_queue`'s
drain (interrupted during any item, or not at all), and `enqueue` — preserve
the claimed invariant: a set watermark never decreases (nor becomes unset),
and every key of the status dict stays strictly below the entry count.  For
the drain this is relative to the data model's queue shape (one-based
indices into the entry list, which is the only shape the two producers
create); under it the drain also provably completes without an uncaught
exception. -/
theorem feedstate_ops_preserve_invariant :
    (∀ (bl : Bool) (lim : Option Int) (fs : FeedState),
      watermark_le fs.latest_entry_number
        (attempt_update_plan bl lim fs).2.2.latest_entry_number = true ∧
      (keys_bound fs → keys_bound (attempt_update_plan bl lim fs).2.2)) ∧
    (∀ (intr : Option Nat) (fs : FeedState) (l : Int),
      fs.latest_entry_number = some l → queue_wf fs → keys_bound fs →
      (download_queue intr fs).isSome = true ∧
      keys_bound ((download_queue intr fs).getD fs) ∧
      watermark_le fs.latest_entry_number
        ((download_queue intr fs).getD fs).latest_entry_number = true) ∧
    (∀ (fs : FeedState) (nums : List Int),
      watermark_le fs.latest_entry_number
        (enqueue fs nums).2.latest_entry_number = true ∧
      (keys_bound fs → keys_bound (enqueue fs nums).2)) := by
  refine ⟨?_, ?_, ?_⟩
  · intro bl lim fs
    obtain ⟨h1, h2, h3⟩ := attempt_update_plan_state bl lim fs
    refine ⟨h3, ?_⟩
    intro hk
    unfold keys_bound
    rw [h1, h2]
    exact hk
  · intro intr fs l hl hwf hk
    obtain ⟨q', d', l', heq, hle, hbd⟩ :=
      drainGo_preserves intr fs.entries fs.queue 0 fs.entries_state_dict l
        hwf hk
    have hdq : download_queue intr fs =
        some { fs with
                 queue := q'
                 entries_state_dict := d'
                 latest_entry_number := some l' } := by
      unfold download_queue
      rw [hl, heq]
      rfl
    rw [hdq]
    refine ⟨rfl, ?_, ?_⟩
    · intro p hp
      exact hbd p hp
    · rw [hl]
      simp [watermark_le, hle]
  · intro fs nums
    exact ⟨watermark_le_refl _, fun hk => hk⟩

/-- Closed witness applying `feedstate_ops_preserve_invariant` to concrete
feed states: the planning stage on `fsTen`, an uninterrupted drain on
`fsFive`, and an `enqueue` on `fsQueued`. -/
theorem feedstate_ops_preserve_invariant_witness :
    watermark_le fsTen.latest_entry_number
      (attempt_update_plan true (some 2) fsTen).2.2.latest_entry_number
      = true ∧
    keys_bound (attempt_update_plan true (some 2) fsTen).2.2 ∧
    queue_wf fsFive ∧
    (download_queue none fsFive).isSome = true ∧
    keys_bound ((download_queue none fsFive).getD fsFive) ∧
    watermark_le fsFive.latest_entry_number
      ((download_queue none fsFive).getD fsFive).latest_entry_number = true ∧
    watermark_le fsQueued.latest_entry_number
      (enqueue fsQueued [2]).2.latest_entry_number = true ∧
    keys_bound (enqueue fsQueued [2]).2 :=
  ⟨(feedstate_ops_preserve_invariant.1 true (some 2) fsTen).1,
   (feedstate_ops_preserve_invariant.1 true (some 2) fsTen).2 (by decide),
   by decide,
   (feedstate_ops_preserve_invariant.2.1 none fsFive 0 rfl (by decide)
     (by decide)).1,
   (feedstate_ops_preserve_invariant.2.1 none fsFive 0 rfl (by decide)
     (by decide)).2.1,
   (feedstate_ops_preserve_invariant.2.1 none fsFive 0 rfl (by decide)
     (by decide)).2.2,
   (feedstate_ops_preserve_invariant.2.2 fsQueued [2]).1,
   (feedstate_ops_preserve_invariant.2.2 fsQueued [2]).2 (by decide)⟩

/-- Whether a response makes the retrieval state machine retry: exactly the
statuses that are present and none of 304 (not modified), 404, 401, 410
(failures) or 200 (success); absent status (local file) never retries even
for a bozo body. -/
def attempt_again_p (p : Parsed) : Bool :=
  match p.status with
  | none => false
  | some s =>
    !(decide (s = 304) || decide (s = 404) || decide (s = 401) ||
      decide (s = 410) || decide (s = 200))

/-- A non-retrying attempt step never produces `ATTEMPT_AGAIN`, never
touches `temp_url`, and touches `current_url` only on 401/410. -/
theorem get_feed_step_no_aa (p : Parsed) (st : RetrState)
    (h : attempt_again_p p = false) :
    (get_feed_step p st).1 ≠ UpdateResult.ATTEMPT_AGAIN ∧
    (get_feed_step p st).2.temp_url = st.temp_url ∧
    (p.status ≠ some 401 → p.status ≠ some 410 →
      (get_feed_step p st).2.current_url = st.current_url) := by
  cases hs : p.status with
  | none =>
    by_cases hb : p.bozo
    · refine ⟨?_, ?_, fun _ _ => ?_⟩ <;>
        simp [get_feed_step, feedparser_classify, hs, hb]
    · refine ⟨?_, ?_, fun _ _ => ?_⟩ <;>
        simp [get_feed_step, feedparser_classify, handle_http_codes, hs, hb]
  | some s =>
    have hd : s = 304 ∨ s = 404 ∨ s = 401 ∨ s = 410 ∨ s = 200 := by
      unfold attempt_again_p at h
      rw [hs] at h
      by_contra hc
      push_neg at hc
      obtain ⟨h1, h2, h3, h4, h5⟩ := hc
      simp [h1, h2, h3, h4, h5] at h
    rcases hd with rfl | rfl | rfl | rfl | rfl
    · refine ⟨?_, ?_, fun _ _ => ?_⟩ <;>
        simp [get_feed_step, feedparser_classify, handle_http_codes, hs]
    · refine ⟨?_, ?_, fun _ _ => ?_⟩ <;>
        simp [get_feed_step, feedparser_classify, handle_http_codes, hs]
    · refine ⟨?_, ?_, fun h401 _ => ?_⟩
      · simp [get_feed_step, feedparser_classify, handle_http_codes, hs]
      · simp [get_feed_step, feedparser_classify, handle_http_codes, hs]
      · exact absurd rfl h401
    · refine ⟨?_, ?_, fun _ h410 => ?_⟩
      · simp [get_feed_step, feedparser_classify, handle_http_codes, hs]
      · simp [get_feed_step, feedparser_classify, handle_http_codes, hs]
      · exact absurd rfl h410
    · refine ⟨?_, ?_, fun _ _ => ?_⟩ <;>
        simp [get_feed_step, feedparser_classify, handle_http_codes, hs]

/-- A whole `get_feed_go` call whose first response does not retry
preserves `temp_url`, and preserves `current_url` unless that response is a
401/410. -/
theorem get_feed_go_no_aa (env : Nat → Parsed) (gas : Nat) (st : RetrState)
    (a : Nat) (h : attempt_again_p (env a) = false) :
    (get_feed_go env gas st a).2.temp_url = st.temp_url ∧
    ((env a).status ≠ some 401 → (env a).status ≠ some 410 →
      (get_feed_go env gas st a).2.current_url = st.current_url) := by
  cases gas with
  | zero => exact ⟨rfl, fun _ _ => rfl⟩
  | succ gas' =>
    unfold get_feed_go
    by_cases ha : a > MAX_RECURSIVE_ATTEMPTS
    · rw [if_pos ha]
      exact ⟨rfl, fun _ _ => rfl⟩
    · rw [if_neg ha]
      cases hcur : st.current_url with
      | none => exact ⟨rfl, fun _ _ => hcur⟩
      | some u =>
        dsimp only
        by_cases hu : u = ""
        · rw [if_pos hu]
          exact ⟨rfl, fun _ _ => hcur⟩
        · rw [if_neg hu]
          obtain ⟨hne, htemp, hcurp⟩ := get_feed_step_no_aa (env a) st h
          cases hstep : get_feed_step (env a) st with
          | mk c st2 =>
            rw [hstep] at hne htemp hcurp
            cases c with
            | ATTEMPT_AGAIN => exact absurd rfl hne
            | SUCCESS => exact ⟨htemp, fun h1 h2 => (hcurp h1 h2).trans hcur⟩
            | UNNEEDED => exact ⟨htemp, fun h1 h2 => (hcurp h1 h2).trans hcur⟩
            | FAILURE => exact ⟨htemp, fun h1 h2 => (hcurp h1 h2).trans hcur⟩

/-- A 302/303/307 response makes the step stash `current_url` in
`temp_url`, move to the redirect target, and retry. -/
theorem get_feed_step_temp_redirect (p : Parsed) (st : RetrState) (s : Int)
    (hs : p.status = some s) (hmem : s = 302 ∨ s = 303 ∨ s = 307) :
    get_feed_step p st =
      (UpdateResult.ATTEMPT_AGAIN,
       { st with
           etag := p.petag.orElse (fun _ => st.etag)
           temp_url := st.current_url
           current_url := some p.href }) := by
  rcases hmem with rfl | rfl | rfl <;>
    simp [get_feed_step, feedparser_classify, handle_http_codes, hs]

/-- A 301/308 response makes the step rewrite `current_url` in place and
retry, leaving `temp_url` alone. -/
theorem get_feed_step_perm_redirect (p : Parsed) (st : RetrState) (s : Int)
    (hs : p.status = some s) (hmem : s = 301 ∨ s = 308) :
    get_feed_step p st =
      (UpdateResult.ATTEMPT_AGAIN,
       { st with
           etag := p.petag.orElse (fun _ => st.etag)
           current_url := some p.href }) := by
  rcases hmem with rfl | rfl <;>
    simp [get_feed_step, feedparser_classify, handle_http_codes, hs]

/-- Unfolding one retrying level of `get_feed_go`: recurse at the next
attempt, then restore `current_url` from the captured `temp_url` when the
latter is set. -/
theorem get_feed_go_aa (env : Nat → Parsed) (gas' : Nat) (st st2 : RetrState)
    (a : Nat) (u : String) (ha : ¬ a > MAX_RECURSIVE_ATTEMPTS)
    (hcur : st.current_url = some u) (hu : ¬ u = "")
    (hstep : get_feed_step (env a) st = (UpdateResult.ATTEMPT_AGAIN, st2)) :
    get_feed_go env (gas' + 1) st a =
      match st2.temp_url with
      | some t =>
        ((get_feed_go env gas' st2 (a + 1)).1,
         { (get_feed_go env gas' st2 (a + 1)).2 with current_url := some t })
      | none => get_feed_go env gas' st2 (a + 1) := by
  conv_lhs => unfold get_feed_go
  rw [if_neg ha, hcur]
  dsimp only
  rw [if_neg hu, hstep]


/-- Environment: one temporary redirect (302 to "B") then a plain 200. -/
def envTempOnce : Nat → Parsed := fun a =>
  match a with
  | 0 => { status := some 302, href := "B", bozo := false, petag := none,
           entries := [] }
  | _ + 1 => { status := some 200, href := "", bozo := false, petag := none,
               entries := mkEntries 1 }

/-- Environment: one permanent redirect (301 to "B") then a plain 200. -/
def envPermOnce : Nat → Parsed := fun a =>
  match a with
  | 0 => { status := some 301, href := "B", bozo := false, petag := none,
           entries := [] }
  | _ + 1 => { status := some 200, href := "", bozo := false, petag := none,
               entries := mkEntries 1 }

/-- C5, counterexample.  A cycle starting at URL "A" that meets one 302 to
"B" and then succeeds does restore `current_url` to "A", but `temp_url` is
never cleared: it still holds "A" when the cycle completes, refuting the
claim's "tempUrl is cleared back to unset".  (The source's `get_feed` has
no assignment of `None` to `_temp_url`; a later cycle that retries for any
reason will therefore wrongly "restore" `current_url` from this stale
value.) -/
theorem temp_url_not_cleared_counterexample :
    (get_feed envTempOnce stA 0).1 = UpdateResult.SUCCESS ∧
    (get_feed envTempOnce stA 0).2.current_url = some "A" ∧
    (get_feed envTempOnce stA 0).2.temp_url = some "A" ∧
    ¬ (get_feed envTempOnce stA 0).2.temp_url = none := by
  refine ⟨rfl, rfl, rfl, by decide⟩

/-- C5, amended.  A 302/303/307 target is used only for the current attempt:
once the redirected attempt returns (with the follow-up response not
retrying), `current_url` is back at its pre-redirect value — but `temp_url`
is not cleared, it retains that pre-redirect URL.  A 301/308 rewrite of
`current_url` does persist provided `temp_url` was unset when the cycle
reached it (and the follow-up response is not a 401/410, which clears the
URL by design). -/
theorem temp_redirect_behavior_amended :
    (∀ (env : Nat → Parsed) (st : RetrState) (a : Nat) (A : String) (s : Int),
      a ≤ MAX_RECURSIVE_ATTEMPTS →
      st.current_url = some A → A ≠ "" →
      (env a).status = some s → (s = 302 ∨ s = 303 ∨ s = 307) →
      attempt_again_p (env (a + 1)) = false →
      (get_feed env st a).2.current_url = some A ∧
      (get_feed env st a).2.temp_url = some A) ∧
    (∀ (env : Nat → Parsed) (st : RetrState) (a : Nat) (A : String) (s : Int),
      a ≤ MAX_RECURSIVE_ATTEMPTS →
      st.current_url = some A → A ≠ "" → st.temp_url = none →
      (env a).status = some s → (s = 301 ∨ s = 308) →
      attempt_again_p (env (a + 1)) = false →
      (env (a + 1)).status ≠ some 401 → (env (a + 1)).status ≠ some 410 →
      (get_feed env st a).2.current_url = some ((env a).href) ∧
      (get_feed env st a).2.temp_url = none) := by
  constructor
  · intro env st a A s ha hcur hA hst hmem hnext
    have hstep := get_feed_step_temp_redirect (env a) st s hst hmem
    have hgas : MAX_RECURSIVE_ATTEMPTS + 1 - a =
        (MAX_RECURSIVE_ATTEMPTS - a) + 1 := by
      unfold MAX_RECURSIVE_ATTEMPTS at ha ⊢
      omega
    unfold get_feed
    rw [hgas]
    rw [get_feed_go_aa env (MAX_RECURSIVE_ATTEMPTS - a) st _ a A
      (by omega) hcur hA hstep]
    dsimp only
    rw [hcur]
    refine ⟨rfl, ?_⟩
    exact (get_feed_go_no_aa env (MAX_RECURSIVE_ATTEMPTS - a) _ (a + 1)
      hnext).1
  · intro env st a A s ha hcur hA htemp hst hmem hnext h401 h410
    have hstep := get_feed_step_perm_redirect (env a) st s hst hmem
    have hgas : MAX_RECURSIVE_ATTEMPTS + 1 - a =
        (MAX_RECURSIVE_ATTEMPTS - a) + 1 := by
      unfold MAX_RECURSIVE_ATTEMPTS at ha ⊢
      omega
    unfold get_feed
    rw [hgas]
    rw [get_feed_go_aa env (MAX_RECURSIVE_ATTEMPTS - a) st _ a A
      (by omega) hcur hA hstep]
    dsimp only
    rw [htemp]
    obtain ⟨ht, hc⟩ :=
      get_feed_go_no_aa env (MAX_RECURSIVE_ATTEMPTS - a)
        { st with
            etag := (env a).petag.orElse (fun _ => st.etag)
            temp_url := none
            current_url := some (env a).href }
        (a + 1) hnext
    exact ⟨hc h401 h410, ht⟩

/-- Closed witness applying `temp_redirect_behavior_amended` to the two
concrete environments: after a 302 cycle the URL is restored but the temp
slot still holds it; after a 301 cycle the rewritten URL persists and the
temp slot stays unset. -/
theorem temp_redirect_behavior_amended_witness :
    (get_feed envTempOnce stA 0).2.current_url = some "A" ∧
    (get_feed envTempOnce stA 0).2.temp_url = some "A" ∧
    (get_feed envPermOnce stA 0).2.current_url = some "B" ∧
    (get_feed envPermOnce stA 0).2.temp_url = none :=
  ⟨(temp_redirect_behavior_amended.1 envTempOnce stA 0 "A" 302 (by decide)
      rfl (by decide) rfl (Or.inl rfl) (by decide)).1,
   (temp_redirect_behavior_amended.1 envTempOnce stA 0 "A" 302 (by decide)
      rfl (by decide) rfl (Or.inl rfl) (by decide)).2,
   (temp_redirect_behavior_amended.2 envPermOnce stA 0 "A" 301 (by decide)
      rfl (by decide) rfl rfl (Or.inl rfl) (by decide) (by decide)
      (by decide)).1,
   (temp_redirect_behavior_amended.2 envPermOnce stA 0 "A" 301 (by decide)
      rfl (by decide) rfl rfl (Or.inl rfl) (by decide) (by decide)
      (by decide)).2⟩
